import Mathlib

/-!
Verification development for the `bluster` BlueZ peripheral layer
(`src/peripheral/bluez/device.rs` and `src/peripheral/bluez/adapter.rs`).

The dynamically typed D-Bus values (`dbus::arg::RefArg`) are shallowly
embedded as the inductive `RefArg`; the accessors `as_u64`, `as_i64`,
`as_str`, `as_iter` and `argType` mirror the corresponding `dbus-rs`
trait methods (for a `Variant`, `as_iter` yields the single inner value;
for a dict, it yields keys and values interleaved, which is exactly the
shape the source code matches on with `ArgType::UInt16` /
`ArgType::Variant`).  A `HashMap<String, Variant<..>>` is embedded as an
association list with unique-key lookup.  Rust panics (`unwrap`) and the
`uuid` parse failure are both embedded as `Option.none`, so the decoder
`DeviceProperties.fromMap` returns `Option DeviceProperties`.

The asynchronous transport is embedded as an oracle argument: each
`Device` operation takes the transport reply as an `Except ε _` value and
returns the new device state (and, where the source returns a
future/`Result`, the outcome).  `connect_pan` is split into its
synchronous phase (`connect_pan_start`, everything the source does before
the method call is issued) and its completion continuation
(`connect_pan_complete`), mirroring the future's structure.
-/

namespace Bluster

/-- Embedding of the `dbus::arg::ArgType` tags the source code matches on. -/
inductive ArgType where
  | booleanT
  | byteT
  | uint16T
  | uint64T
  | intT
  | stringT
  | arrayT
  | variantT
  | dictT
deriving DecidableEq

/-- Shallow embedding of dynamically typed D-Bus argument values
(`Box<dyn RefArg>`).  `byte`, `uint16`, `uint64` carry unsigned wire
integers, `int` carries a signed wire integer (e.g. the RSSI), `dict`
carries an `a{..}` dictionary as an ordered list of key/value pairs. -/
inductive RefArg where
  | boolean (b : Bool)
  | byte (n : Nat)
  | uint16 (n : Nat)
  | uint64 (n : Nat)
  | int (v : Int)
  | str (s : String)
  | array (xs : List RefArg)
  | variant (inner : RefArg)
  | dict (items : List (RefArg × RefArg))

/-- Mirror of `RefArg::arg_type`. -/
def RefArg.argType : RefArg → ArgType
  | .boolean _ => .booleanT
  | .byte _ => .byteT
  | .uint16 _ => .uint16T
  | .uint64 _ => .uint64T
  | .int _ => .intT
  | .str _ => .stringT
  | .array _ => .arrayT
  | .variant _ => .variantT
  | .dict _ => .dictT

/-- Mirror of `RefArg::as_u64`: defined for unsigned integers and booleans
(a boolean reads as 0 or 1), `None` otherwise. -/
def RefArg.as_u64 : RefArg → Option Nat
  | .boolean b => some (if b then 1 else 0)
  | .byte n => some n
  | .uint16 n => some n
  | .uint64 n => some n
  | _ => none

/-- Mirror of `RefArg::as_i64`: defined for signed integers, small unsigned
integers and booleans, `None` otherwise. -/
def RefArg.as_i64 : RefArg → Option Int
  | .boolean b => some (if b then 1 else 0)
  | .byte n => some n
  | .uint16 n => some n
  | .int v => some v
  | _ => none

/-- Mirror of `RefArg::as_str`. -/
def RefArg.as_str : RefArg → Option String
  | .str s => some s
  | _ => none

/-- Mirror of `RefArg::as_iter`: an array iterates over its elements, a
variant yields its single inner value, a dict yields keys and values
interleaved (the `dbus-rs` behaviour the source relies on). -/
def RefArg.as_iter : RefArg → Option (List RefArg)
  | .array xs => some xs
  | .variant inner => some [inner]
  | .dict items => some (items.flatMap fun kv => [kv.1, kv.2])
  | _ => none

/-- Embedding of `HashMap<String, Variant<Box<dyn RefArg>>>`: an
association list; `List.lookup` plays the role of `HashMap::remove`
(each recognized key is consulted at most once by the decoder, and a
`HashMap` has unique keys). -/
abbrev PropMap := List (String × RefArg)

/-! ### String helpers (embedding `str::contains` and `str::split`) -/

/-- Char-list prefix test used by `subOccurs`. -/
def leadMatch : List Char → List Char → Bool
  | [], _ => true
  | _ :: _, [] => false
  | a :: as, b :: bs => a == b && leadMatch as bs

/-- Substring occurrence test over char lists. -/
def subOccurs (needle : List Char) : List Char → Bool
  | [] => leadMatch needle []
  | c :: rest => leadMatch needle (c :: rest) || subOccurs needle rest

/-- Embedding of Rust `str::contains` with a literal pattern. -/
def strContains (s pat : String) : Bool :=
  subOccurs pat.toList s.toList

/-- Embedding of Rust `str::split(sep)` over char lists: splitting keeps
empty segments, so the number of segments is one more than the number of
separators (`"/a/b/c/d".split('/').count() == 5`). -/
def splitChar (sep : Char) : List Char → List (List Char)
  | [] => [[]]
  | c :: rest =>
    let r := splitChar sep rest
    if c == sep then [] :: r
    else
      match r with
      | [] => [[c]]
      | g :: gs => (c :: g) :: gs

/-! ### UUID parsing (embedding `uuid::Uuid::parse_str` on the canonical
hyphenated format, which is the format this layer receives from BlueZ) -/

/-- Hexadecimal digit test. -/
def isHexDigit (c : Char) : Bool :=
  ('0' ≤ c && c ≤ '9') || ('a' ≤ c && c ≤ 'f') || ('A' ≤ c && c ≤ 'F')

/-- Hexadecimal digit value. -/
def hexVal (c : Char) : Nat :=
  if '0' ≤ c && c ≤ '9' then c.toNat - '0'.toNat
  else if 'a' ≤ c && c ≤ 'f' then c.toNat - 'a'.toNat + 10
  else c.toNat - 'A'.toNat + 10

/-- Parses a fixed-length group of hex digits. -/
def parseHexGroup (cs : List Char) (len : Nat) : Option Nat :=
  if cs.length = len && cs.all isHexDigit then
    some (cs.foldl (fun acc c => acc * 16 + hexVal c) 0)
  else none

/-- Embedding of the external `uuid::Uuid::parse_str` on the canonical
hyphenated `8-4-4-4-12` format; the result is the UUID's 128-bit value.
Strings not in this format fail to parse. -/
def Uuid.parseStr (s : String) : Option Nat :=
  match splitChar '-' s.toList with
  | [a, b, c, d, e] => do
    let va ← parseHexGroup a 8
    let vb ← parseHexGroup b 4
    let vc ← parseHexGroup c 4
    let vd ← parseHexGroup d 4
    let ve ← parseHexGroup e 12
    pure ((((va * 2 ^ 16 + vb) * 2 ^ 16 + vc) * 2 ^ 16 + vd) * 2 ^ 48 + ve)
  | _ => none

/-! ### Data model (`device.rs` lines 14-72) -/

/-- Embedding of `DevicePanStatus`. -/
inductive DevicePanStatus where
  | disconnected
  | connecting
  | connected (interfaceName : String)
deriving DecidableEq

/-- Mirror of `impl Default for DevicePanStatus`. -/
def DevicePanStatus.default : DevicePanStatus := .disconnected

/-- Embedding of `ManufacturerCompany`. -/
inductive ManufacturerCompany where
  | apple
  | unknown
deriving DecidableEq

/-- Mirror of `impl Default for ManufacturerCompany`. -/
def ManufacturerCompany.default : ManufacturerCompany := .unknown

/-- Mirror of `impl From<u16> for ManufacturerCompany`. -/
def ManufacturerCompany.fromU16 (value : Nat) : ManufacturerCompany :=
  if value = 0x004C then .apple else .unknown

/-- Embedding of `ManufacturerData`; `data` is the byte sequence (each
element the value of a `u8`). -/
structure ManufacturerData where
  company : ManufacturerCompany
  data : List Nat
deriving DecidableEq

/-- Mirror of the derived `Default` for `ManufacturerData`. -/
def ManufacturerData.default : ManufacturerData :=
  { company := ManufacturerCompany.default, data := [] }

/-- Embedding of `DeviceProperties` (the Rust field `class` is a Lean
keyword and is embedded as `classOfDevice`; `rssi` is the value of an
`i16`, `classOfDevice` the value of a `u64`, `uuids` the 128-bit values
of the parsed UUIDs). -/
structure DeviceProperties where
  services_resolved : Bool
  manufacturer_data : ManufacturerData
  blocked : Bool
  adapter : String
  rssi : Int
  name : String
  address : String
  paired : Bool
  icon : String
  aliasName : String
  trusted : Bool
  address_type : String
  classOfDevice : Nat
  uuids : List Nat
  legacy_pairing : Bool
  connected : Bool
deriving DecidableEq

/-- Mirror of the derived `Default` for `DeviceProperties`: every field is
its zero value. -/
def DeviceProperties.default : DeviceProperties :=
  { services_resolved := false
    manufacturer_data := ManufacturerData.default
    blocked := false
    adapter := ""
    rssi := 0
    name := ""
    address := ""
    paired := false
    icon := ""
    aliasName := ""
    trusted := false
    address_type := ""
    classOfDevice := 0
    uuids := []
    legacy_pairing := false
    connected := false }

/-- Two's-complement narrowing `as i16` applied to a wider signed integer:
the unique integer in `[-32768, 32768)` congruent to `v` modulo `2 ^ 16`. -/
def i16OfInt (v : Int) : Int :=
  let r := v % 65536
  if r < 32768 then r else r - 65536

/-! ### The property decoder
(`impl From<HashMap<String, Variant<Box<dyn RefArg>>>> for DeviceProperties`,
`device.rs` lines 74-201).  Each `if let Some(data) = value.remove(KEY)`
block of the source is one `step` function below; `DeviceProperties.fromMap`
chains them in the source's order over `Option` (a failing `unwrap` is
`none`). -/

/-- Fold body of the `ManufacturerData` decode (`device.rs` lines 89-113):
the dict iterates keys and values interleaved; a `UInt16` item overwrites
the accumulated company id (narrowed `as u16`), a `Variant` item is
unwrapped once more and folded into the byte vector (each element narrowed
`as u8`), any other item is ignored. -/
def mfStep (acc : Nat × List Nat) (pair : RefArg) : Option (Nat × List Nat) :=
  match pair.argType with
  | ArgType.uint16T => do
    let v ← pair.as_u64
    pure (v % 65536, acc.2)
  | ArgType.variantT => do
    let outer ← pair.as_iter
    let first ← outer.head?
    let elems ← first.as_iter
    let res ← elems.foldlM (fun acc2 value => do
      let b ← value.as_u64
      pure (acc2 ++ [b % 256])) ([] : List Nat)
    pure (acc.1, res)
  | _ => pure acc

/-- Fold body of the `UUIDs` decode (`device.rs` lines 177-186): each
element must read as a string and parse as a UUID; a parse failure aborts
the fold (the source's `try_fold` followed by `unwrap`). -/
def uuidStep (acc : List Nat) (device_uuid : RefArg) : Option (List Nat) := do
  let str_uuid ← device_uuid.as_str
  match Uuid.parseStr str_uuid with
  | some u => pure (acc ++ [u])
  | none => none

/-- Decode block for the key `ServicesResolved` (`device.rs` 77-79). -/
def stepServicesResolved (value : PropMap) (props : DeviceProperties) :
    Option DeviceProperties :=
  match List.lookup "ServicesResolved" value with
  | some data => do
    let n ← data.as_u64
    pure { props with services_resolved := n != 0 }
  | none => some props

/-- Decode block for the key `ManufacturerData` (`device.rs` 81-119): the
variant is unwrapped (`as_iter` then `next`) to reach the dict, whose
interleaved items are folded with `mfStep`. -/
def stepManufacturerData (value : PropMap) (props : DeviceProperties) :
    Option DeviceProperties :=
  match List.lookup "ManufacturerData" value with
  | some data => do
    let outer ← data.as_iter
    let inner ← outer.head?
    let items ← inner.as_iter
    let mf ← items.foldlM mfStep ((0, []) : Nat × List Nat)
    pure { props with
      manufacturer_data :=
        { company := ManufacturerCompany.fromU16 mf.1, data := mf.2 } }
  | none => some props

/-- Decode block for the key `Blocked` (`device.rs` 121-123). -/
def stepBlocked (value : PropMap) (props : DeviceProperties) :
    Option DeviceProperties :=
  match List.lookup "Blocked" value with
  | some data => do
    let n ← data.as_u64
    pure { props with blocked := n != 0 }
  | none => some props

/-- Decode block for the key `Path` (`device.rs` 125-127): it writes the
`adapter` field, just like the later `Adapter` block. -/
def stepPath (value : PropMap) (props : DeviceProperties) :
    Option DeviceProperties :=
  match List.lookup "Path" value with
  | some data => do
    let s ← data.as_str
    pure { props with adapter := s }
  | none => some props

/-- Decode block for the key `RSSI` (`device.rs` 129-131): the wire
integer is narrowed `as i16` with no range check. -/
def stepRSSI (value : PropMap) (props : DeviceProperties) :
    Option DeviceProperties :=
  match List.lookup "RSSI" value with
  | some data => do
    let v ← data.as_i64
    pure { props with rssi := i16OfInt v }
  | none => some props

/-- Decode block for the key `Adapter` (`device.rs` 133-135); processed
after `Path`, so it overwrites `adapter` when both keys are present. -/
def stepAdapter (value : PropMap) (props : DeviceProperties) :
    Option DeviceProperties :=
  match List.lookup "Adapter" value with
  | some data => do
    let s ← data.as_str
    pure { props with adapter := s }
  | none => some props

/-- Decode block for the key `Name` (`device.rs` 137-139). -/
def stepName (value : PropMap) (props : DeviceProperties) :
    Option DeviceProperties :=
  match List.lookup "Name" value with
  | some data => do
    let s ← data.as_str
    pure { props with name := s }
  | none => some props

/-- Decode block for the key `Address` (`device.rs` 141-143). -/
def stepAddress (value : PropMap) (props : DeviceProperties) :
    Option DeviceProperties :=
  match List.lookup "Address" value with
  | some data => do
    let s ← data.as_str
    pure { props with address := s }
  | none => some props

/-- Decode block for the key `Paired` (`device.rs` 145-147). -/
def stepPaired (value : PropMap) (props : DeviceProperties) :
    Option DeviceProperties :=
  match List.lookup "Paired" value with
  | some data => do
    let n ← data.as_u64
    pure { props with paired := n != 0 }
  | none => some props

/-- Decode block for the key `Icon` (`device.rs` 149-151). -/
def stepIcon (value : PropMap) (props : DeviceProperties) :
    Option DeviceProperties :=
  match List.lookup "Icon" value with
  | some data => do
    let s ← data.as_str
    pure { props with icon := s }
  | none => some props

/-- Decode block for the key `Alias` (`device.rs` 153-155). -/
def stepAlias (value : PropMap) (props : DeviceProperties) :
    Option DeviceProperties :=
  match List.lookup "Alias" value with
  | some data => do
    let s ← data.as_str
    pure { props with aliasName := s }
  | none => some props

/-- Decode block for the key `Trusted` (`device.rs` 157-159). -/
def stepTrusted (value : PropMap) (props : DeviceProperties) :
    Option DeviceProperties :=
  match List.lookup "Trusted" value with
  | some data => do
    let n ← data.as_u64
    pure { props with trusted := n != 0 }
  | none => some props

/-- Decode block for the key `AddressType` (`device.rs` 161-163). -/
def stepAddressType (value : PropMap) (props : DeviceProperties) :
    Option DeviceProperties :=
  match List.lookup "AddressType" value with
  | some data => do
    let s ← data.as_str
    pure { props with address_type := s }
  | none => some props

/-- Decode block for the key `Class` (`device.rs` 165-167). -/
def stepClass (value : PropMap) (props : DeviceProperties) :
    Option DeviceProperties :=
  match List.lookup "Class" value with
  | some data => do
    let n ← data.as_u64
    pure { props with classOfDevice := n }
  | none => some props

/-- Decode block for the key `UUIDs` (`device.rs` 169-189): the variant is
unwrapped to reach the string array, which is folded with `uuidStep`. -/
def stepUUIDs (value : PropMap) (props : DeviceProperties) :
    Option DeviceProperties :=
  match List.lookup "UUIDs" value with
  | some data => do
    let outer ← data.as_iter
    let arr ← outer.head?
    let elems ← arr.as_iter
    let uuids ← elems.foldlM uuidStep ([] : List Nat)
    pure { props with uuids := uuids }
  | none => some props

/-- Decode block for the key `LegacyPairing` (`device.rs` 191-193). -/
def stepLegacyPairing (value : PropMap) (props : DeviceProperties) :
    Option DeviceProperties :=
  match List.lookup "LegacyPairing" value with
  | some data => do
    let n ← data.as_u64
    pure { props with legacy_pairing := n != 0 }
  | none => some props

/-- Decode block for the key `Connected` (`device.rs` 195-197). -/
def stepConnected (value : PropMap) (props : DeviceProperties) :
    Option DeviceProperties :=
  match List.lookup "Connected" value with
  | some data => do
    let n ← data.as_u64
    pure { props with connected := n != 0 }
  | none => some props

/-- Embedding of
`impl From<HashMap<String, Variant<Box<dyn RefArg>>>> for DeviceProperties`
(`device.rs` 74-201): starting from the default record, the recognized
keys are decoded in the source's order; a failing `unwrap` (or UUID parse
failure) makes the whole decode `none`. -/
def DeviceProperties.fromMap (value : PropMap) : Option DeviceProperties :=
  stepServicesResolved value DeviceProperties.default >>=
  stepManufacturerData value >>=
  stepBlocked value >>=
  stepPath value >>=
  stepRSSI value >>=
  stepAdapter value >>=
  stepName value >>=
  stepAddress value >>=
  stepPaired value >>=
  stepIcon value >>=
  stepAlias value >>=
  stepTrusted value >>=
  stepAddressType value >>=
  stepClass value >>=
  stepUUIDs value >>=
  stepLegacyPairing value >>=
  stepConnected value

/-! ### Device operations (`device.rs` lines 203-349)
The mutable state behind the two `RwLock`s is embedded as `DeviceState`;
each operation takes the transport reply (or replies) as an oracle and
returns the state after the operation (and the outcome where the source
returns a future or `Result`). -/

/-- The mutable state of a `Device`: its PAN status and its cached
property snapshot (the contents of the two `RwLock`s). -/
structure DeviceState where
  pan_status : DevicePanStatus
  properties : DeviceProperties
deriving DecidableEq

/-- Mirror of `Device::new` (`device.rs` 219-226): default status and
default properties. -/
def Device.new : DeviceState :=
  { pan_status := DevicePanStatus.default
    properties := DeviceProperties.default }

/-- Mirror of `Device::assign_properties` (`device.rs` 228-230):
`*self.properties.write() = data.into()` (a decode panic is `none`). -/
def Device.assign_properties (s : DeviceState) (data : PropMap) :
    Option DeviceState := do
  let p ← DeviceProperties.fromMap data
  pure { s with properties := p }

/-- Mirror of `Device::refresh` (`device.rs` 232-263): on a successful
`GetAll` reply the decoded record replaces the cached snapshot wholesale;
a transport error or a decode failure leaves the snapshot untouched (the
spawned future just errors out before the single write). -/
def Device.refresh {ε : Type} (s : DeviceState) (reply : Except ε PropMap) :
    DeviceState :=
  match reply with
  | Except.error _ => s
  | Except.ok m =>
    match DeviceProperties.fromMap m with
    | none => s
    | some new_props => { s with properties := new_props }

/-- Mirror of `Device::update_rssi` (`device.rs` 265-280): a typed
property read of the `i16` RSSI; on success only that field of the cached
snapshot is written, on failure the error is printed and swallowed (the
return type carries no error). -/
def Device.update_rssi {ε : Type} (s : DeviceState) (maybe_rssi : Except ε Int) :
    DeviceState :=
  match maybe_rssi with
  | Except.ok rssi => { s with properties := { s.properties with rssi := rssi } }
  | Except.error _ => s

/-- Synchronous phase of `Device::connect_pan` (`device.rs` 282-291):
`*self.pan_status.write() = DevicePanStatus::Connecting` happens before
the `Connect` method call is built and issued. -/
def Device.connect_pan_start (s : DeviceState) : DeviceState :=
  { s with pan_status := DevicePanStatus.connecting }

/-- Completion continuation of `Device::connect_pan` (`device.rs`
293-306): a successful reply is read as the interface-name string and the
status becomes `Connected(connection_id)`; an error is surfaced to the
caller and nothing is written. -/
def Device.connect_pan_complete {ε : Type} (s : DeviceState)
    (reply : Except ε String) : DeviceState × Except ε Unit :=
  match reply with
  | Except.ok connection_id =>
    ({ s with pan_status := DevicePanStatus.connected connection_id }, Except.ok ())
  | Except.error e => (s, Except.error e)

/-- The whole of `Device::connect_pan`: the synchronous phase followed by
the completion continuation applied to the transport reply. -/
def Device.connect_pan {ε : Type} (s : DeviceState) (reply : Except ε String) :
    DeviceState × Except ε Unit :=
  Device.connect_pan_complete (Device.connect_pan_start s) reply

/-- Mirror of `Device::disconnect_pan` (`device.rs` 308-329): the
`Disconnect` call is issued without reading the current status; on success
the status unconditionally becomes `Disconnected`, on failure the error is
surfaced and nothing is written. -/
def Device.disconnect_pan {ε : Type} (s : DeviceState) (reply : Except ε Unit) :
    DeviceState × Except ε Unit :=
  match reply with
  | Except.ok _ => ({ s with pan_status := DevicePanStatus.disconnected }, Except.ok ())
  | Except.error e => (s, Except.error e)

/-- Mirror of `Device::refresh_pan_status` (`device.rs` 331-348): the
`Connected` flag is read first (`?` returns early on error); if it is
true the `Interface` name is read as well (again `?`); only after both
needed reads succeed is the computed status written to the cache and
returned. -/
def Device.refresh_pan_status {ε : Type} (s : DeviceState)
    (connectedReply : Except ε Bool) (interfaceReply : Except ε String) :
    DeviceState × Except ε DevicePanStatus :=
  match connectedReply with
  | Except.error e => (s, Except.error e)
  | Except.ok connected =>
    match
      (if connected then
        match interfaceReply with
        | Except.error e => Except.error e
        | Except.ok interfaceName =>
          Except.ok (DevicePanStatus.connected interfaceName)
      else Except.ok DevicePanStatus.disconnected : Except ε DevicePanStatus)
    with
    | Except.error e => (s, Except.error e)
    | Except.ok status => ({ s with pan_status := status }, Except.ok status)

/-! ### Device discovery (`adapter.rs` lines 74-133) -/

/-- Embedding of the bus-wide object enumeration
`HashMap<Path, HashMap<String, HashMap<String, Variant<..>>>>`: an ordered
association list from object path to its interface map. -/
abbrev ObjectMap := List (String × List (String × PropMap))

/-- The filter of `Adapter::devices` (`adapter.rs` 109-121): the path must
contain `"/org/bluez/hci0/dev_"`, the object must expose the
`org.bluez.Device1` interface, and the path must have exactly five
`'/'`-separated segments (depth exactly one below the adapter). -/
def deviceFilter (path : String) (props : List (String × PropMap)) : Bool :=
  (strContains path "/org/bluez/hci0/dev_" &&
    (List.lookup "org.bluez.Device1" props).isSome) &&
  (splitChar '/' path.toList).length == 5

/-- Embedding of `Adapter::devices` (`adapter.rs` 74-133): the enumeration
is filtered with `deviceFilter`; each match's `org.bluez.Device1` property
map is decoded and installed into a fresh `Device` via
`Device::new` / `Device::assign_properties`, keyed by the object path
(a decode panic is `none`). -/
def Adapter.devices (map : ObjectMap) : Option (List (String × DeviceState)) :=
  (map.filter fun po => deviceFilter po.1 po.2).mapM fun po => do
    let bz_device ← List.lookup "org.bluez.Device1" po.2
    let device ← Device.assign_properties Device.new bz_device
    pure (po.1, device)

/-! ### Spec-side definitions
These follow the specification's words (well-typed values per recognized
key, and the expected decode result as the default record overridden
exactly at the supplied keys); the theorems below compare them with the
source-derived decoder. -/

/-- Well-typed value for a boolean-coerced key. -/
def wtBool : RefArg → Bool
  | RefArg.boolean _ => true
  | _ => false

/-- Well-typed value for a string-coerced key. -/
def wtStr : RefArg → Bool
  | RefArg.str _ => true
  | _ => false

/-- Well-typed value for the `RSSI` key: a signed wire integer (of any
magnitude — the spec documents silent truncation, not a range check). -/
def wtInt : RefArg → Bool
  | RefArg.int _ => true
  | _ => false

/-- Well-typed value for the `Class` key. -/
def wtU64 : RefArg → Bool
  | RefArg.uint64 _ => true
  | _ => false

/-- Byte element of a manufacturer-data array. -/
def wtByte : RefArg → Bool
  | RefArg.byte _ => true
  | _ => false

/-- Well-typed key/value pair of the `ManufacturerData` dict: an unsigned
16-bit company identifier mapped to a variant-wrapped byte array. -/
def mfItemWT (kv : RefArg × RefArg) : Bool :=
  match kv.1, kv.2 with
  | RefArg.uint16 _, RefArg.variant (RefArg.array bs) => bs.all wtByte
  | _, _ => false

/-- Well-typed value for the `ManufacturerData` key: a variant-wrapped
dict all of whose pairs are well typed. -/
def wtMf : RefArg → Bool
  | RefArg.variant (RefArg.dict items) => items.all mfItemWT
  | _ => false

/-- Well-typed element of the `UUIDs` array: a string that parses as a
canonical UUID. -/
def wtUuidElem : RefArg → Bool
  | RefArg.str s => (Uuid.parseStr s).isSome
  | _ => false

/-- Well-typed value for the `UUIDs` key: a variant-wrapped array of
parsable UUID strings. -/
def wtUuids : RefArg → Bool
  | RefArg.variant (RefArg.array es) => es.all wtUuidElem
  | _ => false

/-- The key `k` is either absent from the map or carries a value that is
well typed according to `wt`. -/
def keyIs (value : PropMap) (k : String) (wt : RefArg → Bool) : Bool :=
  match List.lookup k value with
  | none => true
  | some v => wt v

/-- Every recognized key that is present in the map carries a well-typed
value (the spec's precondition for a successful decode). -/
def mapOk (value : PropMap) : Bool :=
  keyIs value "ServicesResolved" wtBool &&
  keyIs value "ManufacturerData" wtMf &&
  keyIs value "Blocked" wtBool &&
  keyIs value "Path" wtStr &&
  keyIs value "RSSI" wtInt &&
  keyIs value "Adapter" wtStr &&
  keyIs value "Name" wtStr &&
  keyIs value "Address" wtStr &&
  keyIs value "Paired" wtBool &&
  keyIs value "Icon" wtStr &&
  keyIs value "Alias" wtStr &&
  keyIs value "Trusted" wtBool &&
  keyIs value "AddressType" wtStr &&
  keyIs value "Class" wtU64 &&
  keyIs value "UUIDs" wtUuids &&
  keyIs value "LegacyPairing" wtBool &&
  keyIs value "Connected" wtBool

/-- Expected byte sequence of a well-typed manufacturer-data byte array
(each byte narrowed `as u8`). -/
def specBytes (bs : List RefArg) : List Nat :=
  bs.map fun b => (RefArg.as_u64 b).getD 0 % 256

/-- Expected manufacturer data decoded from the dict's pairs: with the
keys and values iterated interleaved and each later item overwriting the
accumulator, the result comes from the last pair (company from its key
narrowed `as u16`, bytes from its variant-wrapped value); an empty dict
leaves the default. -/
def specMfData (items : List (RefArg × RefArg)) : ManufacturerData :=
  match items.getLast? with
  | some (RefArg.uint16 k, RefArg.variant (RefArg.array bs)) =>
    { company := ManufacturerCompany.fromU16 (k % 65536), data := specBytes bs }
  | _ => ManufacturerData.default

/-- Expected UUID value of a well-typed `UUIDs` array element. -/
def specUuidVal : RefArg → Nat
  | RefArg.str s => (Uuid.parseStr s).getD 0
  | _ => 0

/-- Field override for a boolean-coerced key: the supplied value if the
key is present, the previous value otherwise. -/
def updBool (value : PropMap) (k : String) (old : Bool) : Bool :=
  match List.lookup k value with
  | some (RefArg.boolean b) => b
  | _ => old

/-- Field override for a string-coerced key. -/
def updStr (value : PropMap) (k : String) (old : String) : String :=
  match List.lookup k value with
  | some (RefArg.str s) => s
  | _ => old

/-- Field override for the `RSSI` key: the supplied wire integer narrowed
to a signed 16-bit value. -/
def updRssi (value : PropMap) (old : Int) : Int :=
  match List.lookup "RSSI" value with
  | some (RefArg.int v) => i16OfInt v
  | _ => old

/-- Field override for the `Class` key. -/
def updClass (value : PropMap) (old : Nat) : Nat :=
  match List.lookup "Class" value with
  | some (RefArg.uint64 n) => n
  | _ => old

/-- Field override for the `ManufacturerData` key. -/
def updMf (value : PropMap) (old : ManufacturerData) : ManufacturerData :=
  match List.lookup "ManufacturerData" value with
  | some (RefArg.variant (RefArg.dict items)) => specMfData items
  | _ => old

/-- Field override for the `UUIDs` key: the ordered sequence of parsed
UUIDs. -/
def updUuids (value : PropMap) (old : List Nat) : List Nat :=
  match List.lookup "UUIDs" value with
  | some (RefArg.variant (RefArg.array es)) => es.map specUuidVal
  | _ => old

/-- The record the specification promises for a well-typed partial map:
the default record overridden exactly at the supplied keys (with both
`Path` and `Adapter` feeding the `adapter` field, `Adapter` winning when
both are present, as the spec documents). -/
def specRecord (value : PropMap) : DeviceProperties :=
  { services_resolved := updBool value "ServicesResolved" false
    manufacturer_data := updMf value ManufacturerData.default
    blocked := updBool value "Blocked" false
    adapter := updStr value "Adapter" (updStr value "Path" "")
    rssi := updRssi value 0
    name := updStr value "Name" ""
    address := updStr value "Address" ""
    paired := updBool value "Paired" false
    icon := updStr value "Icon" ""
    aliasName := updStr value "Alias" ""
    trusted := updBool value "Trusted" false
    address_type := updStr value "AddressType" ""
    classOfDevice := updClass value 0
    uuids := updUuids value []
    legacy_pairing := updBool value "LegacyPairing" false
    connected := updBool value "Connected" false }

/-! ### Fold characterization lemmas -/

/-- Last-wins accumulator over the well-typed pairs of the
`ManufacturerData` dict: each pair overwrites the accumulated (company id,
bytes); ill-typed pairs leave it as is. -/
def mfLast (acc : Nat × List Nat) : List (RefArg × RefArg) → Nat × List Nat
  | [] => acc
  | (RefArg.uint16 k, RefArg.variant (RefArg.array bs)) :: rest =>
    mfLast (k % 65536, specBytes bs) rest
  | _ :: rest => mfLast acc rest

/-- Inversion of `wtByte`. -/
lemma wtByte_shape (b : RefArg) (h : wtByte b = true) : ∃ n, b = RefArg.byte n := by
  cases b <;> simp [wtByte] at h
  exact ⟨_, rfl⟩

/-- Inversion of `mfItemWT`. -/
lemma mfItemWT_shape (kv : RefArg × RefArg) (h : mfItemWT kv = true) :
    ∃ k bs, kv = (RefArg.uint16 k, RefArg.variant (RefArg.array bs)) ∧
      bs.all wtByte = true := by
  unfold mfItemWT at h
  split at h
  · rename_i k bs heq1 heq2
    exact ⟨k, bs, Prod.ext heq1 heq2, h⟩
  · simp at h

/-- Inversion of `wtUuidElem`. -/
lemma wtUuidElem_shape (e : RefArg) (h : wtUuidElem e = true) :
    ∃ s, e = RefArg.str s ∧ (Uuid.parseStr s).isSome = true := by
  cases e <;> first
    | exact ⟨_, rfl, h⟩
    | simp [wtUuidElem] at h

lemma byteFold_char (bs : List RefArg) (acc : List Nat)
    (h : bs.all wtByte = true) :
    List.foldlM (fun acc2 value => do
      let b ← RefArg.as_u64 value
      pure (acc2 ++ [b % 256])) acc bs = some (acc ++ specBytes bs) := by
  induction bs generalizing acc with
  | nil => simp [specBytes]
  | cons b rest ih =>
    rw [List.all_cons, Bool.and_eq_true] at h
    obtain ⟨hb, hrest⟩ := h
    obtain ⟨n, rfl⟩ := wtByte_shape b hb
    simp only [RefArg.as_u64, Option.pure_def, Option.bind_eq_bind] at ih ⊢
    rw [List.foldlM]
    simp only [Option.bind_eq_bind, Option.some_bind]
    rw [ih (acc ++ [n % 256]) hrest]
    simp [specBytes, RefArg.as_u64, List.append_assoc]

lemma mfStep_u16 (acc : Nat × List Nat) (k : Nat) :
    mfStep acc (RefArg.uint16 k) = some (k % 65536, acc.2) := rfl

lemma mfStep_variant (acc : Nat × List Nat) (bs : List RefArg)
    (h : bs.all wtByte = true) :
    mfStep acc (RefArg.variant (RefArg.array bs)) = some (acc.1, specBytes bs) := by
  show (List.foldlM (fun acc2 value => do
      let b ← RefArg.as_u64 value
      pure (acc2 ++ [b % 256])) [] bs >>= fun res => some (acc.1, res)) = _
  rw [byteFold_char bs [] h]
  rfl

lemma mfFold_char (items : List (RefArg × RefArg)) (acc : Nat × List Nat)
    (h : items.all mfItemWT = true) :
    List.foldlM mfStep acc (items.flatMap fun kv => [kv.1, kv.2])
      = some (mfLast acc items) := by
  induction items generalizing acc with
  | nil => simp [mfLast]
  | cons kv rest ih =>
    rw [List.all_cons, Bool.and_eq_true] at h
    obtain ⟨hkv, hrest⟩ := h
    obtain ⟨k, bs, rfl, hb⟩ := mfItemWT_shape kv hkv
    have hexp : ((RefArg.uint16 k, RefArg.variant (RefArg.array bs)) :: rest).flatMap
        (fun kv => [kv.1, kv.2])
        = RefArg.uint16 k :: RefArg.variant (RefArg.array bs) ::
            rest.flatMap (fun kv => [kv.1, kv.2]) := rfl
    rw [hexp, List.foldlM, mfStep_u16]
    simp only [Option.bind_eq_bind, Option.some_bind]
    rw [List.foldlM, mfStep_variant _ _ hb]
    simp only [Option.bind_eq_bind, Option.some_bind]
    rw [ih (k % 65536, specBytes bs) hrest]
    rfl

lemma getLast?_of_all {α : Type} (p : α → Bool) (l : List α)
    (hl : l.all p = true) (hne : l ≠ []) :
    ∃ a, l.getLast? = some a ∧ p a = true := by
  induction l with
  | nil => exact absurd rfl hne
  | cons x rest ih =>
    rw [List.all_cons, Bool.and_eq_true] at hl
    cases rest with
    | nil => exact ⟨x, rfl, hl.1⟩
    | cons y ys =>
      obtain ⟨a, ha, hpa⟩ := ih hl.2 (by simp)
      exact ⟨a, by rw [List.getLast?_cons_cons]; exact ha, hpa⟩

lemma mfLast_last (items : List (RefArg × RefArg))
    (h : items.all mfItemWT = true) (hne : items ≠ []) (acc : Nat × List Nat) :
    ∃ k bs, items.getLast? = some (RefArg.uint16 k, RefArg.variant (RefArg.array bs)) ∧
      mfLast acc items = (k % 65536, specBytes bs) := by
  induction items generalizing acc with
  | nil => exact absurd rfl hne
  | cons kv rest ih =>
    rw [List.all_cons, Bool.and_eq_true] at h
    obtain ⟨hkv, hrest⟩ := h
    obtain ⟨k, bs, rfl, hb⟩ := mfItemWT_shape kv hkv
    cases rest with
    | nil => exact ⟨k, bs, rfl, rfl⟩
    | cons y ys =>
      obtain ⟨k2, bs2, hgl, hml⟩ := ih hrest (by simp) (k % 65536, specBytes bs)
      exact ⟨k2, bs2, by rw [List.getLast?_cons_cons]; exact hgl, hml⟩

lemma specMfData_char (items : List (RefArg × RefArg))
    (h : items.all mfItemWT = true) :
    ({ company := ManufacturerCompany.fromU16 (mfLast (0, []) items).1
       data := (mfLast (0, []) items).2 } : ManufacturerData)
      = specMfData items := by
  cases items with
  | nil =>
    simp [mfLast, specMfData, ManufacturerData.default,
      ManufacturerCompany.fromU16, ManufacturerCompany.default]
  | cons kv rest =>
    obtain ⟨k, bs, hgl, hml⟩ := mfLast_last (kv :: rest) h (by simp) (0, [])
    rw [hml, specMfData, hgl]

lemma uuidFold_char (es : List RefArg) (acc : List Nat)
    (h : es.all wtUuidElem = true) :
    List.foldlM uuidStep acc es = some (acc ++ es.map specUuidVal) := by
  induction es generalizing acc with
  | nil => simp
  | cons e rest ih =>
    rw [List.all_cons, Bool.and_eq_true] at h
    obtain ⟨he, hrest⟩ := h
    obtain ⟨s, rfl, hps⟩ := wtUuidElem_shape e he
    obtain ⟨u, hu⟩ := Option.isSome_iff_exists.mp hps
    rw [List.foldlM]
    rw [show uuidStep acc (RefArg.str s)
        = (match Uuid.parseStr s with
           | some u => some (acc ++ [u])
           | none => none) from rfl, hu]
    simp only [Option.bind_eq_bind, Option.some_bind]
    rw [ih (acc ++ [u]) hrest]
    simp [specUuidVal, hu, List.append_assoc]

lemma uuidFold_none (es : List RefArg) (s : String)
    (hs : RefArg.str s ∈ es) (hp : Uuid.parseStr s = none) (acc : List Nat) :
    List.foldlM uuidStep acc es = none := by
  induction es generalizing acc with
  | nil => cases hs
  | cons e rest ih =>
    rw [List.foldlM]
    rcases List.mem_cons.mp hs with heq | hmem
    · rw [← heq]
      rw [show uuidStep acc (RefArg.str s)
          = (match Uuid.parseStr s with
             | some u => some (acc ++ [u])
             | none => none) from rfl, hp]
      rfl
    · cases hstep : uuidStep acc e with
      | none => rfl
      | some acc2 =>
        simp only [Option.bind_eq_bind, Option.some_bind]
        exact ih hmem acc2

/-! ### Per-key characterization of the decoder steps -/

/-- Inversion of `wtMf`. -/
lemma wtMf_shape (v : RefArg) (h : wtMf v = true) :
    ∃ items, v = RefArg.variant (RefArg.dict items) ∧ items.all mfItemWT = true := by
  unfold wtMf at h
  split at h
  · exact ⟨_, rfl, h⟩
  · simp at h

/-- Inversion of `wtUuids`. -/
lemma wtUuids_shape (v : RefArg) (h : wtUuids v = true) :
    ∃ es, v = RefArg.variant (RefArg.array es) ∧ es.all wtUuidElem = true := by
  unfold wtUuids at h
  split at h
  · exact ⟨_, rfl, h⟩
  · simp at h

lemma stepServicesResolved_char (value : PropMap)
    (h : keyIs value "ServicesResolved" wtBool = true) (p : DeviceProperties) :
    stepServicesResolved value p
      = some { p with services_resolved := updBool value "ServicesResolved" p.services_resolved } := by
  unfold keyIs at h
  unfold stepServicesResolved updBool
  cases hl : List.lookup "ServicesResolved" value with
  | none => rfl
  | some v =>
    rw [hl] at h
    cases v <;> simp [wtBool] at h
    rename_i b
    cases b <;> rfl

lemma stepBlocked_char (value : PropMap)
    (h : keyIs value "Blocked" wtBool = true) (p : DeviceProperties) :
    stepBlocked value p
      = some { p with blocked := updBool value "Blocked" p.blocked } := by
  unfold keyIs at h
  unfold stepBlocked updBool
  cases hl : List.lookup "Blocked" value with
  | none => rfl
  | some v =>
    rw [hl] at h
    cases v <;> simp [wtBool] at h
    rename_i b
    cases b <;> rfl

lemma stepPaired_char (value : PropMap)
    (h : keyIs value "Paired" wtBool = true) (p : DeviceProperties) :
    stepPaired value p
      = some { p with paired := updBool value "Paired" p.paired } := by
  unfold keyIs at h
  unfold stepPaired updBool
  cases hl : List.lookup "Paired" value with
  | none => rfl
  | some v =>
    rw [hl] at h
    cases v <;> simp [wtBool] at h
    rename_i b
    cases b <;> rfl

lemma stepTrusted_char (value : PropMap)
    (h : keyIs value "Trusted" wtBool = true) (p : DeviceProperties) :
    stepTrusted value p
      = some { p with trusted := updBool value "Trusted" p.trusted } := by
  unfold keyIs at h
  unfold stepTrusted updBool
  cases hl : List.lookup "Trusted" value with
  | none => rfl
  | some v =>
    rw [hl] at h
    cases v <;> simp [wtBool] at h
    rename_i b
    cases b <;> rfl

lemma stepLegacyPairing_char (value : PropMap)
    (h : keyIs value "LegacyPairing" wtBool = true) (p : DeviceProperties) :
    stepLegacyPairing value p
      = some { p with legacy_pairing := updBool value "LegacyPairing" p.legacy_pairing } := by
  unfold keyIs at h
  unfold stepLegacyPairing updBool
  cases hl : List.lookup "LegacyPairing" value with
  | none => rfl
  | some v =>
    rw [hl] at h
    cases v <;> simp [wtBool] at h
    rename_i b
    cases b <;> rfl

lemma stepConnected_char (value : PropMap)
    (h : keyIs value "Connected" wtBool = true) (p : DeviceProperties) :
    stepConnected value p
      = some { p with connected := updBool value "Connected" p.connected } := by
  unfold keyIs at h
  unfold stepConnected updBool
  cases hl : List.lookup "Connected" value with
  | none => rfl
  | some v =>
    rw [hl] at h
    cases v <;> simp [wtBool] at h
    rename_i b
    cases b <;> rfl

lemma stepPath_char (value : PropMap)
    (h : keyIs value "Path" wtStr = true) (p : DeviceProperties) :
    stepPath value p
      = some { p with adapter := updStr value "Path" p.adapter } := by
  unfold keyIs at h
  unfold stepPath updStr
  cases hl : List.lookup "Path" value with
  | none => rfl
  | some v =>
    rw [hl] at h
    cases v <;> simp [wtStr] at h
    rfl

lemma stepAdapter_char (value : PropMap)
    (h : keyIs value "Adapter" wtStr = true) (p : DeviceProperties) :
    stepAdapter value p
      = some { p with adapter := updStr value "Adapter" p.adapter } := by
  unfold keyIs at h
  unfold stepAdapter updStr
  cases hl : List.lookup "Adapter" value with
  | none => rfl
  | some v =>
    rw [hl] at h
    cases v <;> simp [wtStr] at h
    rfl

lemma stepName_char (value : PropMap)
    (h : keyIs value "Name" wtStr = true) (p : DeviceProperties) :
    stepName value p
      = some { p with name := updStr value "Name" p.name } := by
  unfold keyIs at h
  unfold stepName updStr
  cases hl : List.lookup "Name" value with
  | none => rfl
  | some v =>
    rw [hl] at h
    cases v <;> simp [wtStr] at h
    rfl

lemma stepAddress_char (value : PropMap)
    (h : keyIs value "Address" wtStr = true) (p : DeviceProperties) :
    stepAddress value p
      = some { p with address := updStr value "Address" p.address } := by
  unfold keyIs at h
  unfold stepAddress updStr
  cases hl : List.lookup "Address" value with
  | none => rfl
  | some v =>
    rw [hl] at h
    cases v <;> simp [wtStr] at h
    rfl

lemma stepIcon_char (value : PropMap)
    (h : keyIs value "Icon" wtStr = true) (p : DeviceProperties) :
    stepIcon value p
      = some { p with icon := updStr value "Icon" p.icon } := by
  unfold keyIs at h
  unfold stepIcon updStr
  cases hl : List.lookup "Icon" value with
  | none => rfl
  | some v =>
    rw [hl] at h
    cases v <;> simp [wtStr] at h
    rfl

lemma stepAlias_char (value : PropMap)
    (h : keyIs value "Alias" wtStr = true) (p : DeviceProperties) :
    stepAlias value p
      = some { p with aliasName := updStr value "Alias" p.aliasName } := by
  unfold keyIs at h
  unfold stepAlias updStr
  cases hl : List.lookup "Alias" value with
  | none => rfl
  | some v =>
    rw [hl] at h
    cases v <;> simp [wtStr] at h
    rfl

lemma stepAddressType_char (value : PropMap)
    (h : keyIs value "AddressType" wtStr = true) (p : DeviceProperties) :
    stepAddressType value p
      = some { p with address_type := updStr value "AddressType" p.address_type } := by
  unfold keyIs at h
  unfold stepAddressType updStr
  cases hl : List.lookup "AddressType" value with
  | none => rfl
  | some v =>
    rw [hl] at h
    cases v <;> simp [wtStr] at h
    rfl

lemma stepRSSI_char (value : PropMap)
    (h : keyIs value "RSSI" wtInt = true) (p : DeviceProperties) :
    stepRSSI value p = some { p with rssi := updRssi value p.rssi } := by
  unfold keyIs at h
  unfold stepRSSI updRssi
  cases hl : List.lookup "RSSI" value with
  | none => rfl
  | some v =>
    rw [hl] at h
    cases v <;> simp [wtInt] at h
    rfl

lemma stepClass_char (value : PropMap)
    (h : keyIs value "Class" wtU64 = true) (p : DeviceProperties) :
    stepClass value p = some { p with classOfDevice := updClass value p.classOfDevice } := by
  unfold keyIs at h
  unfold stepClass updClass
  cases hl : List.lookup "Class" value with
  | none => rfl
  | some v =>
    rw [hl] at h
    cases v <;> simp [wtU64] at h
    rfl

lemma stepManufacturerData_char (value : PropMap)
    (h : keyIs value "ManufacturerData" wtMf = true) (p : DeviceProperties) :
    stepManufacturerData value p
      = some { p with manufacturer_data := updMf value p.manufacturer_data } := by
  unfold keyIs at h
  cases hl : List.lookup "ManufacturerData" value with
  | none =>
    unfold stepManufacturerData updMf
    rw [hl]
  | some v =>
    rw [hl] at h
    obtain ⟨items, rfl, hall⟩ := wtMf_shape v h
    have hupd : updMf value p.manufacturer_data = specMfData items := by
      unfold updMf
      rw [hl]
    have hlhs : stepManufacturerData value p
        = (List.foldlM mfStep (0, []) (items.flatMap fun kv => [kv.1, kv.2])).bind
            fun mf => some { p with manufacturer_data :=
              { company := ManufacturerCompany.fromU16 mf.1, data := mf.2 } } := by
      unfold stepManufacturerData
      rw [hl]
      rfl
    rw [hlhs, mfFold_char items (0, []) hall, Option.some_bind, hupd,
      specMfData_char items hall]

lemma stepUUIDs_char (value : PropMap)
    (h : keyIs value "UUIDs" wtUuids = true) (p : DeviceProperties) :
    stepUUIDs value p = some { p with uuids := updUuids value p.uuids } := by
  unfold keyIs at h
  cases hl : List.lookup "UUIDs" value with
  | none =>
    unfold stepUUIDs updUuids
    rw [hl]
  | some v =>
    rw [hl] at h
    obtain ⟨es, rfl, hall⟩ := wtUuids_shape v h
    have hupd : updUuids value p.uuids = es.map specUuidVal := by
      unfold updUuids
      rw [hl]
    have hlhs : stepUUIDs value p
        = (List.foldlM uuidStep [] es).bind fun uuids =>
            some { p with uuids := uuids } := by
      unfold stepUUIDs
      rw [hl]
      rfl
    rw [hlhs, uuidFold_char es [] hall, Option.some_bind, hupd, List.nil_append]

/-! ### Claim theorems -/

/-- C1: for every property map whose recognized keys carry well-typed
values, the decoder succeeds and produces exactly the default record
overridden at the supplied keys (`specRecord`): each recognized key that
is present overrides its field with the decoded value, and every absent
key's field keeps its zero/default value (with `Path` and `Adapter` both
recognized spellings for the `adapter` field, `Adapter` winning when both
are present). -/
theorem decode_overrides_supplied_keys (value : PropMap) (h : mapOk value = true) :
    DeviceProperties.fromMap value = some (specRecord value) := by
  unfold mapOk at h
  simp only [Bool.and_eq_true, and_assoc] at h
  obtain ⟨h1, h2, h3, h4, h5, h6, h7, h8, h9, h10, h11, h12, h13, h14, h15, h16, h17⟩ := h
  unfold DeviceProperties.fromMap
  simp only [stepServicesResolved_char value h1, stepManufacturerData_char value h2,
    stepBlocked_char value h3, stepPath_char value h4, stepRSSI_char value h5,
    stepAdapter_char value h6, stepName_char value h7, stepAddress_char value h8,
    stepPaired_char value h9, stepIcon_char value h10, stepAlias_char value h11,
    stepTrusted_char value h12, stepAddressType_char value h13, stepClass_char value h14,
    stepUUIDs_char value h15, stepLegacyPairing_char value h16, stepConnected_char value h17,
    Option.bind_eq_bind, Option.some_bind]
  rfl

/-- C2: `connect_pan` writes `Connecting` in its synchronous phase, before
the transport call is issued, so a caller sampling the status before the
reply observes `Connecting`; a successful reply carrying an interface name
moves the status to `Connected` with exactly that name; a failed reply
leaves the status at `Connecting` and surfaces the error. -/
theorem connect_pan_status_lifecycle {ε : Type} (s : DeviceState)
    (iface : String) (e : ε) :
    (Device.connect_pan_start s).pan_status = DevicePanStatus.connecting ∧
    (Device.connect_pan s (Except.ok iface : Except ε String)).1.pan_status
      = DevicePanStatus.connected iface ∧
    (Device.connect_pan s (Except.error e)).1.pan_status
      = DevicePanStatus.connecting ∧
    (Device.connect_pan s (Except.error e)).2 = Except.error e :=
  ⟨rfl, rfl, rfl, rfl⟩

/-- C3: `refresh` leaves the cached snapshot exactly as it was on a
transport error or a decode failure, and on success replaces it wholesale
by the newly decoded record. -/
theorem refresh_snapshot_atomic {ε : Type} (s : DeviceState) (e : ε)
    (m : PropMap) (p : DeviceProperties) :
    Device.refresh s (Except.error e) = s ∧
    (DeviceProperties.fromMap m = none →
      Device.refresh s (Except.ok m : Except ε PropMap) = s) ∧
    (DeviceProperties.fromMap m = some p →
      Device.refresh s (Except.ok m : Except ε PropMap)
        = { s with properties := p }) := by
  have hred : Device.refresh s (Except.ok m : Except ε PropMap)
      = match DeviceProperties.fromMap m with
        | none => s
        | some new_props => { s with properties := new_props } := rfl
  refine ⟨rfl, fun h => ?_, fun h => ?_⟩
  · rw [hred, h]
  · rw [hred, h]

/-- C3 witness: a transport error, a decode failure (a string where the
boolean `ServicesResolved` is expected) and a successful decode, each at a
concrete state. -/
theorem refresh_snapshot_atomic_witness :
    Device.refresh Device.new (Except.error ()) = Device.new ∧
    Device.refresh Device.new
      (Except.ok [("ServicesResolved", RefArg.str "x")] : Except Unit PropMap)
      = Device.new ∧
    Device.refresh Device.new
      (Except.ok [("Name", RefArg.str "n")] : Except Unit PropMap)
      = { Device.new with
          properties := { DeviceProperties.default with name := "n" } } :=
  ⟨(refresh_snapshot_atomic Device.new () [] DeviceProperties.default).1,
   (refresh_snapshot_atomic Device.new () [("ServicesResolved", RefArg.str "x")]
      DeviceProperties.default).2.1 (by rfl),
   (refresh_snapshot_atomic Device.new () [("Name", RefArg.str "n")]
      { DeviceProperties.default with name := "n" }).2.2 (by rfl)⟩

/-- C6: after a successful `Disconnect` reply the PAN status is
`Disconnected` whatever it was before, and the operation's outcome never
depends on the prior status (the request is issued without inspecting the
current state). -/
theorem disconnect_pan_unconditional {ε : Type} (s t : DeviceState)
    (reply : Except ε Unit) :
    (Device.disconnect_pan s (Except.ok () : Except ε Unit)).1.pan_status
      = DevicePanStatus.disconnected ∧
    (Device.disconnect_pan s reply).2 = (Device.disconnect_pan t reply).2 := by
  refine ⟨rfl, ?_⟩
  cases reply <;> rfl

/-- C8: decoding a map with `RSSI = -40` yields `rssi = -40`, and for any
wire integer the decoded `rssi` is its deterministic two's-complement
narrowing modulo `2 ^ 16` (no range check, no error). -/
theorem rssi_decode_truncates :
    (DeviceProperties.fromMap [("RSSI", RefArg.int (-40))]
      = some { DeviceProperties.default with rssi := -40 }) ∧
    (∀ v : Int, DeviceProperties.fromMap [("RSSI", RefArg.int v)]
      = some { DeviceProperties.default with
          rssi := (v + 32768) % 65536 - 32768 }) := by
  have hgen : ∀ v : Int, DeviceProperties.fromMap [("RSSI", RefArg.int v)]
      = some { DeviceProperties.default with rssi := i16OfInt v } := fun v => rfl
  have heq : ∀ v : Int, i16OfInt v = (v + 32768) % 65536 - 32768 := by
    intro v
    simp only [i16OfInt]
    split <;> omega
  constructor
  · rw [hgen (-40), show i16OfInt (-40) = (-40 : Int) from by decide]
  · intro v
    rw [hgen v, heq v]

/-- C9: `update_rssi` changes at most the `rssi` field: a successful read
writes only that field, a failed read leaves the whole state untouched
(and the operation's type carries no error back to the caller). -/
theorem update_rssi_frame_effect {ε : Type} (s : DeviceState) (v : Int) (e : ε) :
    Device.update_rssi s (Except.ok v : Except ε Int)
      = { s with properties := { s.properties with rssi := v } } ∧
    Device.update_rssi s (Except.error e) = s :=
  ⟨rfl, rfl⟩

/-- C10: `refresh_pan_status` is atomic on error: a failed `Connected`
read, or a failed `Interface` read when the flag is true, returns the
error with the cached status exactly as before; on success the returned
status equals the newly cached one and the status is the only change. -/
theorem refresh_pan_status_atomic {ε : Type} (s : DeviceState) (e e2 : ε)
    (ir : Except ε String) :
    Device.refresh_pan_status s (Except.error e) ir = (s, Except.error e) ∧
    Device.refresh_pan_status s (Except.ok true) (Except.error e2)
      = (s, Except.error e2) ∧
    (∀ (c : Bool) (s2 : DeviceState) (st : DevicePanStatus),
      Device.refresh_pan_status s (Except.ok c) ir = (s2, Except.ok st) →
        s2.pan_status = st ∧ s2 = { s with pan_status := st }) := by
  refine ⟨rfl, rfl, ?_⟩
  intro c s2 st hres
  cases c
  · simp only [Device.refresh_pan_status] at hres
    injection hres with h1 h2
    injection h2 with h3
    subst h1
    subst h3
    exact ⟨rfl, rfl⟩
  · cases ir with
    | error e3 =>
      simp only [Device.refresh_pan_status] at hres
      injection hres with h1 h2
      exact absurd h2 (by simp)
    | ok i =>
      simp only [Device.refresh_pan_status] at hres
      injection hres with h1 h2
      injection h2 with h3
      subst h1
      subst h3
      exact ⟨rfl, rfl⟩

/-- C10 witness: a successful resynchronization at a concrete state and
concrete transport replies. -/
theorem refresh_pan_status_atomic_witness :
    ({ Device.new with pan_status := DevicePanStatus.connected "bnep0" }
        : DeviceState).pan_status = DevicePanStatus.connected "bnep0" ∧
    ({ Device.new with pan_status := DevicePanStatus.connected "bnep0" }
        : DeviceState)
      = { Device.new with pan_status := DevicePanStatus.connected "bnep0" } :=
  (refresh_pan_status_atomic Device.new () () (Except.ok "bnep0")).2.2
    true _ _ rfl

/-- C4 counterexample: a `ManufacturerData` dict with two well-typed pairs,
the first keyed `0x004C` (Apple) with byte `[1]`, the second keyed `5`
with byte `[2]`.  If only the first pair were consulted the decoded
company would be `Apple` with data `[1]`; the decoder in fact folds over
every pair, so the second pair wins: the company is `Unknown` and the
data is `[2]`. -/
theorem manufacturer_first_pair_counterexample :
    ∃ p, DeviceProperties.fromMap
        [("ManufacturerData", RefArg.variant (RefArg.dict
          [(RefArg.uint16 76, RefArg.variant (RefArg.array [RefArg.byte 1])),
           (RefArg.uint16 5, RefArg.variant (RefArg.array [RefArg.byte 2]))]))]
      = some p ∧
      ManufacturerCompany.fromU16 76 = ManufacturerCompany.apple ∧
      p.manufacturer_data.company = ManufacturerCompany.unknown ∧
      p.manufacturer_data.data = [2] :=
  ⟨{ DeviceProperties.default with
      manufacturer_data :=
        { company := ManufacturerCompany.unknown, data := [2] } },
    rfl, rfl, rfl, rfl⟩

/-- C4 amended: the `ManufacturerData` fold consults every key/value item
of the dict in order, later items overwriting earlier ones, so for a
well-typed dict the decoded company comes from the LAST pair's unsigned
16-bit key and the byte sequence from the last pair's variant-wrapped
value (`specMfData`); an empty dict leaves the default; ill-typed item
types would be ignored by the fold. -/
theorem manufacturer_last_pair_wins (items : List (RefArg × RefArg))
    (h : items.all mfItemWT = true) :
    ∃ p, DeviceProperties.fromMap
        [("ManufacturerData", RefArg.variant (RefArg.dict items))] = some p ∧
      p.manufacturer_data = specMfData items := by
  have hm : mapOk [("ManufacturerData", RefArg.variant (RefArg.dict items))]
      = true := by
    show ((((((((((((((((items.all mfItemWT
      && true) && true) && true) && true) && true) && true) && true) && true)
      && true) && true) && true) && true) && true) && true) && true) : Bool)
      = true
    simp [h]
  exact ⟨specRecord _, decode_overrides_supplied_keys _ hm, rfl⟩

/-- C4 amended witness: the two-pair dict of the counterexample satisfies
the amended claim (last pair wins). -/
theorem manufacturer_last_pair_wins_witness :
    ∃ p, DeviceProperties.fromMap
        [("ManufacturerData", RefArg.variant (RefArg.dict
          [(RefArg.uint16 76, RefArg.variant (RefArg.array [RefArg.byte 1])),
           (RefArg.uint16 5, RefArg.variant (RefArg.array [RefArg.byte 2]))]))]
      = some p ∧
      p.manufacturer_data = specMfData
        [(RefArg.uint16 76, RefArg.variant (RefArg.array [RefArg.byte 1])),
         (RefArg.uint16 5, RefArg.variant (RefArg.array [RefArg.byte 2]))] :=
  manufacturer_last_pair_wins
    [(RefArg.uint16 76, RefArg.variant (RefArg.array [RefArg.byte 1])),
     (RefArg.uint16 5, RefArg.variant (RefArg.array [RefArg.byte 2]))]
    (by decide)

/-- A property map carrying only the `UUIDs` key with the given strings. -/
def uuidsOnlyMap (l : List String) : PropMap :=
  [("UUIDs", RefArg.variant (RefArg.array (l.map RefArg.str)))]

lemma all_wtUuidElem_map_str (l : List String) :
    (l.map RefArg.str).all wtUuidElem = l.all fun s => (Uuid.parseStr s).isSome := by
  induction l with
  | nil => rfl
  | cons x xs ih => simp [List.all_cons, ih, wtUuidElem]

/-- C5: if every element of the `UUIDs` array parses as a canonical UUID,
the decode succeeds and `uuids` is the ordered sequence of exactly those
parsed UUIDs; if any element fails to parse, the whole decode of the map
fails, producing no partial list. -/
theorem uuids_decode_all_or_nothing (l : List String) :
    ((l.all fun s => (Uuid.parseStr s).isSome) = true →
      ∃ p, DeviceProperties.fromMap (uuidsOnlyMap l) = some p ∧
        p.uuids = l.map fun s => (Uuid.parseStr s).getD 0) ∧
    (∀ s, s ∈ l → Uuid.parseStr s = none →
      DeviceProperties.fromMap (uuidsOnlyMap l) = none) := by
  constructor
  · intro h
    have hm : mapOk (uuidsOnlyMap l) = true := by
      show ((((l.map RefArg.str).all wtUuidElem && true) && true) : Bool) = true
      have hall : (l.map RefArg.str).all wtUuidElem = true := by
        rw [all_wtUuidElem_map_str]
        exact h
      simp [hall]
    refine ⟨specRecord _, decode_overrides_supplied_keys _ hm, ?_⟩
    show (l.map RefArg.str).map specUuidVal = _
    rw [List.map_map]
    rfl
  · intro s hs hp
    have hf := uuidFold_none (l.map RefArg.str) s
      (List.mem_map_of_mem _ hs) hp []
    have h0 : DeviceProperties.fromMap (uuidsOnlyMap l)
        = ((((List.foldlM uuidStep [] (l.map RefArg.str)).bind fun uuids =>
            some { DeviceProperties.default with uuids := uuids }).bind
              (stepLegacyPairing (uuidsOnlyMap l))).bind
              (stepConnected (uuidsOnlyMap l))) := rfl
    rw [h0, hf]
    rfl

/-- C5 witness: one well-formed canonical UUID decodes to exactly its
128-bit value, and a list with one malformed element fails the whole
decode. -/
theorem uuids_decode_all_or_nothing_witness :
    (∃ p, DeviceProperties.fromMap
        (uuidsOnlyMap ["0000180d-0000-1000-8000-00805f9b34fb"]) = some p ∧
      p.uuids = [0x0000180d00001000800000805f9b34fb]) ∧
    DeviceProperties.fromMap
      (uuidsOnlyMap ["0000180d-0000-1000-8000-00805f9b34fb", "nope"]) = none := by
  constructor
  · obtain ⟨p, hp, hu⟩ :=
      (uuids_decode_all_or_nothing
        ["0000180d-0000-1000-8000-00805f9b34fb"]).1 (by decide)
    refine ⟨p, hp, ?_⟩
    rw [hu]
    decide
  · exact (uuids_decode_all_or_nothing
      ["0000180d-0000-1000-8000-00805f9b34fb", "nope"]).2
      "nope" (by decide) (by decide)

/-- C7: given an enumeration with one object at the expected path depth
exposing `org.bluez.Device1`, one decoy at the wrong path depth and one
object exposing only an unrelated interface, `devices` returns exactly
one entry, keyed by the conforming path and carrying a fresh `Device`
initialized from that object's decoded property map. -/
theorem devices_filters_and_decodes
    (goodPath : String) (goodIfaces : List (String × PropMap))
    (pm : PropMap) (dp : DeviceProperties)
    (decoyPath : String) (decoyIfaces : List (String × PropMap))
    (otherPath : String) (otherIfaces : List (String × PropMap))
    (hg1 : strContains goodPath "/org/bluez/hci0/dev_" = true)
    (hg2 : (splitChar '/' goodPath.toList).length = 5)
    (hg3 : List.lookup "org.bluez.Device1" goodIfaces = some pm)
    (hg4 : DeviceProperties.fromMap pm = some dp)
    (hd : (splitChar '/' decoyPath.toList).length ≠ 5)
    (ho : List.lookup "org.bluez.Device1" otherIfaces = none) :
    Adapter.devices [(goodPath, goodIfaces), (decoyPath, decoyIfaces),
        (otherPath, otherIfaces)]
      = some [(goodPath,
          { pan_status := DevicePanStatus.disconnected, properties := dp })] := by
  have hfg : deviceFilter goodPath goodIfaces = true := by
    unfold deviceFilter
    rw [hg3, show ((splitChar '/' goodPath.toList).length == 5) = true from
      beq_iff_eq.mpr hg2]
    simp [hg1]
  have hfd : deviceFilter decoyPath decoyIfaces = false := by
    unfold deviceFilter
    rw [show ((splitChar '/' decoyPath.toList).length == 5) = false from
      beq_eq_false_iff_ne.mpr hd]
    simp
  have hfo : deviceFilter otherPath otherIfaces = false := by
    unfold deviceFilter
    rw [ho]
    simp
  have hassign : Device.assign_properties Device.new pm
      = some { pan_status := DevicePanStatus.disconnected, properties := dp } := by
    unfold Device.assign_properties
    rw [hg4]
    rfl
  unfold Adapter.devices
  rw [List.filter_cons_of_pos (by exact hfg),
    List.filter_cons_of_neg (by simp [hfd]),
    List.filter_cons_of_neg (by simp [hfo]),
    List.filter_nil]
  rw [List.mapM_cons, List.mapM_nil]
  simp [hg3, hassign]

/-- C7 witness: a concrete three-object enumeration with one conforming
peripheral, one object at the wrong depth and one with only an unrelated
interface. -/
theorem devices_filters_and_decodes_witness :
    Adapter.devices
      [("/org/bluez/hci0/dev_AA", [("org.bluez.Device1",
          [("Name", RefArg.str "x")])]),
       ("/org/bluez/hci0", [("org.bluez.Device1", [])]),
       ("/org/bluez/hci0/dev_BB", [("org.freedesktop.DBus.Introspectable", [])])]
      = some [("/org/bluez/hci0/dev_AA",
          { pan_status := DevicePanStatus.disconnected,
            properties := { DeviceProperties.default with name := "x" } })] :=
  devices_filters_and_decodes
    "/org/bluez/hci0/dev_AA" [("org.bluez.Device1", [("Name", RefArg.str "x")])]
    [("Name", RefArg.str "x")] { DeviceProperties.default with name := "x" }
    "/org/bluez/hci0" [("org.bluez.Device1", [])]
    "/org/bluez/hci0/dev_BB" [("org.freedesktop.DBus.Introspectable", [])]
    (by decide) (by decide) (by rfl) (by rfl) (by decide) (by rfl)

/-- C1 witness: a concrete well-typed partial map exercising boolean,
string, integer, manufacturer-data and UUID keys. -/
theorem decode_overrides_supplied_keys_witness :
    mapOk [("Name", RefArg.str "heart"),
      ("RSSI", RefArg.int (-40)),
      ("Paired", RefArg.boolean true),
      ("UUIDs", RefArg.variant (RefArg.array
        [RefArg.str "0000180d-0000-1000-8000-00805f9b34fb"])),
      ("ManufacturerData", RefArg.variant (RefArg.dict
        [(RefArg.uint16 76, RefArg.variant
            (RefArg.array [RefArg.byte 1, RefArg.byte 0]))]))] = true ∧
    DeviceProperties.fromMap [("Name", RefArg.str "heart"),
      ("RSSI", RefArg.int (-40)),
      ("Paired", RefArg.boolean true),
      ("UUIDs", RefArg.variant (RefArg.array
        [RefArg.str "0000180d-0000-1000-8000-00805f9b34fb"])),
      ("ManufacturerData", RefArg.variant (RefArg.dict
        [(RefArg.uint16 76, RefArg.variant
            (RefArg.array [RefArg.byte 1, RefArg.byte 0]))]))]
      = some (specRecord [("Name", RefArg.str "heart"),
          ("RSSI", RefArg.int (-40)),
          ("Paired", RefArg.boolean true),
          ("UUIDs", RefArg.variant (RefArg.array
            [RefArg.str "0000180d-0000-1000-8000-00805f9b34fb"])),
          ("ManufacturerData", RefArg.variant (RefArg.dict
            [(RefArg.uint16 76, RefArg.variant
                (RefArg.array [RefArg.byte 1, RefArg.byte 0]))]))]) :=
  ⟨by decide,
   decode_overrides_supplied_keys [("Name", RefArg.str "heart"),
      ("RSSI", RefArg.int (-40)),
      ("Paired", RefArg.boolean true),
      ("UUIDs", RefArg.variant (RefArg.array
        [RefArg.str "0000180d-0000-1000-8000-00805f9b34fb"])),
      ("ManufacturerData", RefArg.variant (RefArg.dict
        [(RefArg.uint16 76, RefArg.variant
            (RefArg.array [RefArg.byte 1, RefArg.byte 0]))]))] (by decide)⟩

end Bluster
